import Mathlib

/-!
Verification of the NebulaiNode worker (src/nebula_highspeed.py) against its
specification.  The Python source is shallowly embedded: matrices are lists of
rows of integers (every matrix the program builds holds whole float64 values,
exactly representable), Python integer arithmetic is Int arithmetic (Python's
mod with a positive modulus is Int.emod), SHA-256 from hashlib is embedded as
an executable pure function on byte lists, timestamps are rational parameters,
and the network-driven worker loop is a recursive function over a finite
script of fetch / compute / submit responses whose observable actions (sleeps,
file appends, submissions, counters) are accumulated in a statistics record.
-/

namespace Nebula

/-! ## Matrix engine: generate_matrix (source lines 5-14) -/

/-- Multiplier constant a of the linear congruential recurrence (line 8). -/
def lcgA : Int := 0x4b72e682d

/-- Increment constant b of the linear congruential recurrence (line 8). -/
def lcgB : Int := 0x2675dcd22

/-- One step of the recurrence: value = (a * current_seed + b) % 1000
(line 11; Python % with positive modulus is Int.emod). -/
def lcgStep (current_seed : Int) : Int := (lcgA * current_seed + lcgB) % 1000

/-- The inner loop of generate_matrix (lines 10-13): one row of length n
starting from current_seed, together with the threaded seed after the row. -/
def genRow : Int → Nat → List Int × Int
  | current_seed, 0 => ([], current_seed)
  | current_seed, j + 1 =>
    let value := (lcgA * current_seed + lcgB) % 1000
    let (rest, final_seed) := genRow value j
    (value :: rest, final_seed)

/-- The outer loop of generate_matrix (lines 9-13): the given number of rows,
each of length size, threading current_seed across row boundaries. -/
def genRows : Int → Nat → Nat → List (List Int)
  | _, 0, _ => []
  | current_seed, i + 1, size =>
    let (row, next_seed) := genRow current_seed size
    row :: genRows next_seed i size

/-- generate_matrix (lines 5-14): a size x size matrix filled row-major by the
recurrence, the produced cell value feeding the next step. -/
def generate_matrix (seed : Int) (size : Nat) : List (List Int) :=
  genRows seed size size

/-- Row-major flat view of a matrix (numpy's .flat on a C-order array). -/
def matFlat (m : List (List Int)) : List Int := m.flatten

/-- The recurrence chain of given length read off sequentially: the
specification's description of the generator as iterates of lcgStep. -/
def generateCells : Int → Nat → List Int
  | _, 0 => []
  | s, n + 1 => lcgStep s :: generateCells (lcgStep s) n

/-! ## Matrix multiplication: multiply_matrices (source lines 16-17) -/

/-- Dot product of two equally long lists. -/
def dotProd (r c : List Int) : Int :=
  (List.zip r c).foldl (fun acc p => acc + p.1 * p.2) 0

/-- Column j of a matrix. -/
def colAt (m : List (List Int)) (j : Nat) : List Int :=
  m.map (fun row => row.getD j 0)

/-- multiply_matrices (lines 16-17): the standard matrix product a @ b. -/
def multiply_matrices (a b : List (List Int)) : List (List Int) :=
  a.map (fun row => (List.range (b.headD []).length).map (fun j => dotProd row (colAt b j)))

/-! ## Fingerprint: flatten_matrix and compute_hash_mod (source lines 19-25)

Every matrix the program hashes holds whole float64 values (LCG cells are
integers below 1000 and product entries are integer sums well below 2^53), so
the float format f-string with zero decimals in line 20 prints exactly the
entry's integer decimal text: on the Int model it is toString. -/

/-- flatten_matrix (lines 19-20): join of each entry's zero-decimal text over
the row-major flat iterator, with no separator. -/
def flatten_matrix (matrix : List (List Int)) : String :=
  String.join ((matFlat matrix).map (fun x => toString x))

/-- The bytes of a string as natural numbers.  The strings the program hashes
are ASCII (decimal digits and minus signs), where UTF-8 encoding, i.e. the
Python str.encode in line 24, is the code point of each character. -/
def strBytes (s : String) : List Nat := s.data.map Char.toNat

/-! SHA-256 (hashlib.sha256 in line 24), embedded as a pure function over
lists of byte values, all 32-bit words represented as Nat reduced mod 2^32. -/

/-- The 32-bit word modulus. -/
def w32 : Nat := 2 ^ 32

/-- Right rotation of a 32-bit word. -/
def rotr (n x : Nat) : Nat := ((x >>> n) ||| (x <<< (32 - n))) % w32

/-- Right shift of a 32-bit word. -/
def shr (n x : Nat) : Nat := x >>> n

/-- Bitwise complement of a 32-bit word. -/
def bnot32 (x : Nat) : Nat := x ^^^ (w32 - 1)

/-- SHA-256 choice function. -/
def ch (x y z : Nat) : Nat := (x &&& y) ^^^ (bnot32 x &&& z)

/-- SHA-256 majority function. -/
def maj (x y z : Nat) : Nat := (x &&& y) ^^^ (x &&& z) ^^^ (y &&& z)

/-- SHA-256 big sigma 0. -/
def bigSigma0 (x : Nat) : Nat := rotr 2 x ^^^ rotr 13 x ^^^ rotr 22 x

/-- SHA-256 big sigma 1. -/
def bigSigma1 (x : Nat) : Nat := rotr 6 x ^^^ rotr 11 x ^^^ rotr 25 x

/-- SHA-256 small sigma 0. -/
def smallSigma0 (x : Nat) : Nat := rotr 7 x ^^^ rotr 18 x ^^^ shr 3 x

/-- SHA-256 small sigma 1. -/
def smallSigma1 (x : Nat) : Nat := rotr 17 x ^^^ rotr 19 x ^^^ shr 10 x

/-- The 64 SHA-256 round constants of FIPS 180-4 (the fractional parts of the
cube roots of the first 64 primes), here as decimal word values. -/
def shaK : List Nat :=
  [1116352408, 1899447441, 3049323471, 3921009573, 961987163, 1508970993,
   2453635748, 2870763221, 3624381080, 310598401, 607225278, 1426881987,
   1925078388, 2162078206, 2614888103, 3248222580, 3835390401,
   4022224774, 264347078, 604807628, 770255983, 1249150122, 1555081692,
   1996064986, 2554220882, 2821834349, 2952996808, 3210313671,
   3336571891, 3584528711, 113926993, 338241895, 666307205, 773529912,
   1294757372, 1396182291, 1695183700, 1986661051, 2177026350,
   2456956037, 2730485921, 2820302411, 3259730800, 3345764771,
   3516065817, 3600352804, 4094571909, 275423344, 430227734, 506948616,
   659060556, 883997877, 958139571, 1322822218, 1537002063, 1747873779,
   1955562222, 2024104815, 2227730452, 2361852424, 2428436474,
   2756734187, 3204031479, 3329325298]

/-- The 8 initial SHA-256 hash words of FIPS 180-4 (the fractional parts of
the square roots of the first 8 primes), as decimal word values. -/
def shaInit : List Nat :=
  [1779033703, 3144134277, 1013904242, 2773480762, 1359893119,
   2600822924, 528734635, 1541459225]

/-- Big-endian byte expansion of a number into n bytes. -/
def beBytes (n x : Nat) : List Nat :=
  (List.range n).map (fun i => (x >>> (8 * (n - 1 - i))) % 256)

/-- SHA-256 padding: append 0x80, zero bytes to 56 mod 64, then the bit
length as 8 big-endian bytes. -/
def padMessage (msg : List Nat) : List Nat :=
  msg ++ [0x80] ++ List.replicate ((119 - msg.length % 64) % 64) 0 ++ beBytes 8 (8 * msg.length)

/-- Split a list into the given number of 64-byte blocks. -/
def toBlocksN : Nat → List Nat → List (List Nat)
  | 0, _ => []
  | n + 1, l => l.take 64 :: toBlocksN n (l.drop 64)

/-- Split a padded message (length a multiple of 64) into 64-byte blocks. -/
def toBlocks (l : List Nat) : List (List Nat) :=
  toBlocksN (l.length / 64) l

/-- The i-th big-endian 32-bit word of a 64-byte block. -/
def wordAt (block : List Nat) (i : Nat) : Nat :=
  block.getD (4 * i) 0 * 2 ^ 24 + block.getD (4 * i + 1) 0 * 2 ^ 16 +
    block.getD (4 * i + 2) 0 * 2 ^ 8 + block.getD (4 * i + 3) 0

/-- Next message-schedule word from the words produced so far. -/
def schedNext (w : List Nat) : Nat :=
  let t := w.length
  (smallSigma1 (w.getD (t - 2) 0) + w.getD (t - 7) 0 +
    smallSigma0 (w.getD (t - 15) 0) + w.getD (t - 16) 0) % w32

/-- Extend the message schedule by n further words. -/
def extendSchedule : List Nat → Nat → List Nat
  | w, 0 => w
  | w, n + 1 => extendSchedule (w ++ [schedNext w]) n

/-- The 64-word message schedule of one block. -/
def msgSchedule (block : List Nat) : List Nat :=
  extendSchedule ((List.range 16).map (wordAt block)) 48

/-- The eight working variables of the SHA-256 compression loop. -/
structure Sha8 where
  a : Nat
  b : Nat
  c : Nat
  d : Nat
  e : Nat
  f : Nat
  g : Nat
  h : Nat

/-- One round of the SHA-256 compression loop. -/
def compressStep (s : Sha8) (kw : Nat × Nat) : Sha8 :=
  let t1 := (s.h + bigSigma1 s.e + ch s.e s.f s.g + kw.1 + kw.2) % w32
  let t2 := (bigSigma0 s.a + maj s.a s.b s.c) % w32
  ⟨(t1 + t2) % w32, s.a, s.b, s.c, (s.d + t1) % w32, s.e, s.f, s.g⟩

/-- Load the eight hash words into working variables. -/
def listToSha8 (l : List Nat) : Sha8 :=
  ⟨l.getD 0 0, l.getD 1 0, l.getD 2 0, l.getD 3 0,
   l.getD 4 0, l.getD 5 0, l.getD 6 0, l.getD 7 0⟩

/-- The eight working variables as a word list. -/
def sha8ToList (s : Sha8) : List Nat := [s.a, s.b, s.c, s.d, s.e, s.f, s.g, s.h]

/-- Compress one 64-byte block into the running hash words. -/
def compressBlock (hs : List Nat) (block : List Nat) : List Nat :=
  let out := (List.zip shaK (msgSchedule block)).foldl compressStep (listToSha8 hs)
  (List.zip hs (sha8ToList out)).map (fun p => (p.1 + p.2) % w32)

/-- The eight 32-bit digest words of SHA-256 of a byte list. -/
def sha256Words (msg : List Nat) : List Nat :=
  (toBlocks (padMessage msg)).foldl compressBlock shaInit

/-- The SHA-256 digest read as one big-endian integer: exactly the value of
int(hexdigest, 16) in line 25. -/
def sha256Nat (msg : List Nat) : Nat :=
  (sha256Words msg).foldl (fun acc wd => acc * w32 + wd) 0

/-- compute_hash_mod (lines 22-25): SHA-256 of the flattened text, as a big
integer, reduced modulo mod (the call site in line 78 uses mod = 10^7). -/
def compute_hash_mod (matrix : List (List Int)) (mod : Nat) : Nat :=
  sha256Nat (strBytes (flatten_matrix matrix)) % mod

/-- Modelled from the spec wording for fingerprint (section 4.1): serialize
every entry in row-major iteration order as its integer decimal text,
concatenate the byte strings with no separator, hash with SHA-256, interpret
as a big integer, reduce modulo the modulus. -/
def fingerprintSpec (matrix : List (List Int)) (m : Nat) : Nat :=
  sha256Nat (((matFlat matrix).map (fun x => strBytes (toString x))).flatten) % m

/-! ## Compute pipeline: process_task (source lines 66-85)

The two timestamps time.time() * 1000 of lines 70 and 79 are ambient inputs;
they enter the model as rational parameters t0 and t1. -/

/-- The tail of process_task once the fingerprint f is known (lines 79-82):
line 80 divides t0 by f, which raises ZeroDivisionError when f = 0; the
except clause of lines 83-85 turns any such exception into a None result.
Otherwise the three values of line 82 are returned. -/
def processTaskFrom (t0 t1 : ℚ) (f : Nat) : Option (ℚ × ℚ × ℚ) :=
  if f = 0 then none
  else some (t0 / (f : ℚ), if t1 - t0 ≠ 0 then (f : ℚ) / (t1 - t0) else 0, (t1 - t0) / 1000)

/-- process_task (lines 66-85): generate the two matrices from the task's
seeds (the thread pool of lines 69-76 only overlaps the two independent
generations; the computed value is deterministic), multiply them, take the
fingerprint with modulus 10^7, and build the results from the timestamps. -/
def process_task (t0 t1 : ℚ) (seed1 seed2 : Int) (size : Nat) : Option (ℚ × ℚ × ℚ) :=
  let A := generate_matrix seed1 size
  let B := generate_matrix seed2 size
  let C := multiply_matrices A B
  processTaskFrom t0 t1 (compute_hash_mod C (10 ^ 7))

/-! ## Task client: fetch_task and submit_results (source lines 27-64) -/

/-- A task issued by the remote service (the data object of a fetch). -/
structure Task where
  seed1 : Int
  seed2 : Int
  matrix_size : Nat
  task_id : String
deriving DecidableEq

/-- A fetch response as fetch_task sees it: either a parsed JSON object with
its optional error, code and data fields, or a raised network / protocol
error (timeout, connection failure, malformed JSON) at lines 30-31. -/
inductive FetchResp
  | json (error : Option String) (code : Option Int) (data : Option Task)
  | netError
deriving DecidableEq

/-- Everything one fetch_task call returns and does (lines 27-45): the
(task, ok, rate_limit) return triple, plus whether the token line was
appended to expired_tokens.txt (lines 34-35). -/
structure FetchOut where
  task : Option Task
  ok : Bool
  rateLimit : Bool
  expiredAppend : Bool
deriving DecidableEq

/-- fetch_task (lines 27-45).  The checks run in source order: the jwt error
first (lines 32-36, appending the token), then code -429 (lines 37-39), then
code 0 (lines 40-41; a code-0 response without a data field raises KeyError
at line 41, caught by the except clause), anything else line 42, and a raised
network error takes the except branch of lines 43-45. -/
def fetch_task : FetchResp → FetchOut
  | .netError => ⟨none, false, false, false⟩
  | .json error code data =>
    if error = some "jwt auth err" then ⟨none, false, false, true⟩
    else if code = some (-429) then ⟨none, false, true, false⟩
    else if code = some 0 then
      match data with
      | some t => ⟨some t, true, false, false⟩
      | none => ⟨none, false, false, false⟩
    else ⟨none, false, false, false⟩

/-- The nested data object of a submit response. -/
structure SubmitData where
  calc_status : Bool
  loops : Nat
deriving DecidableEq

/-- A submit response: parsed JSON with its optional code and data fields, or
a raised network / protocol error. -/
inductive SubmitResp
  | json (code : Option Int) (data : Option SubmitData)
  | netError
deriving DecidableEq

/-- submit_results (lines 47-64): the (submitted, rate_limit) return pair.
Code -429 first (lines 54-56), then code 0 with a true calc_status (lines
57-59; the getter chain of line 57 yields False when data is absent), any
other response line 61, and a raised network error lines 62-64. -/
def submit_results : SubmitResp → Bool × Bool
  | .netError => (false, false)
  | .json code data =>
    if code = some (-429) then (false, true)
    else if code = some 0 ∧ (data.map SubmitData.calc_status).getD false = true then (true, false)
    else (false, false)

/-- The (task, ok, rate_limit) value triple of a fetch_task call, without the
side effect flag: exactly what worker_loop receives at line 93. -/
def fetchTriple (r : FetchResp) : Option Task × Bool × Bool :=
  ((fetch_task r).task, (fetch_task r).ok, (fetch_task r).rateLimit)

/-! ## Worker loop: worker_loop (source lines 87-118) -/

/-- The per-token counters of worker_loop (lines 88-89) together with its
observable actions: backoff sleeps (lines 95 and 108), pacing sleeps (line
114), fetch attempts, expired-token appends, compute and submit outcomes, and
the task ids whose results were computed and accepted. -/
structure Stats where
  success : Nat
  fail : Nat
  total : Nat
  total_time : ℚ
  backoffSleeps : Nat
  paceSleeps : Nat
  fetchAttempts : Nat
  expiredAppends : Nat
  computeAttempts : Nat
  computeSuccesses : Nat
  computeFails : Nat
  submitAttempts : Nat
  submitAccepts : Nat
  submitRejects : Nat
  submitRateLimits : Nat
  computedIds : List String
  acceptedIds : List String
deriving DecidableEq

/-- All-zero statistics, the state at loop entry (lines 88-89). -/
def stats0 : Stats := ⟨0, 0, 0, 0, 0, 0, 0, 0, 0, 0, 0, 0, 0, 0, 0, [], []⟩

/-- Record one fetch_task call in the statistics. -/
def recordFetch (fo : FetchOut) (st : Stats) : Stats :=
  { st with fetchAttempts := st.fetchAttempts + 1,
            expiredAppends := st.expiredAppends + (if fo.expiredAppend then 1 else 0) }

/-- The submit phase of one loop iteration (lines 106-114), folded into the
statistics: the submit attempt, then either the rate-limit backoff of lines
107-109 (the in-hand task is dropped, not resubmitted), or the accept count
of lines 110-111 and pacing sleep of line 114, or the reject count of lines
112-114. -/
def submitPhase (t : Task) (s : SubmitResp) (st3 : Stats) : Stats :=
  let so := submit_results s
  let st4 := { st3 with submitAttempts := st3.submitAttempts + 1 }
  if so.2 then
    { st4 with backoffSleeps := st4.backoffSleeps + 1,
               submitRateLimits := st4.submitRateLimits + 1 }
  else if so.1 then
    { st4 with success := st4.success + 1,
               submitAccepts := st4.submitAccepts + 1,
               acceptedIds := st4.acceptedIds ++ [t.task_id],
               paceSleeps := st4.paceSleeps + 1 }
  else
    { st4 with fail := st4.fail + 1,
               submitRejects := st4.submitRejects + 1,
               paceSleeps := st4.paceSleeps + 1 }

/-- What one iteration of the while loop does: go on with updated statistics
and remaining scripts, stop with the final statistics (break, line 98), or
run out of script. -/
inductive StepRes
  | next (cs : List (Option (ℚ × ℚ × ℚ))) (ss : List SubmitResp) (st : Stats)
  | stop (st : Stats)
  | underrun
deriving DecidableEq

/-- One iteration of the while loop (lines 92-114) on a fetch response, the
compute script, and the submit script.  A compute outcome is consumed only
when the fetch succeeded, a submit response only when the compute succeeded.
(The branch for a successful fetch without a task object is unreachable:
fetch_task never returns ok = true with task = none.) -/
def workerStep (fr : FetchResp) (cs : List (Option (ℚ × ℚ × ℚ))) (ss : List SubmitResp)
    (st : Stats) : StepRes :=
  let fo := fetch_task fr
  let st1 := recordFetch fo st
  if fo.rateLimit then
    .next cs ss { st1 with backoffSleeps := st1.backoffSleeps + 1 }
  else if fo.ok = false then
    .stop st1
  else
    match fo.task, cs with
    | none, _ => .stop st1
    | some _, [] => .underrun
    | some t, c :: cs =>
      let st2 := { st1 with computeAttempts := st1.computeAttempts + 1 }
      match c with
      | none =>
        .next cs ss { st2 with fail := st2.fail + 1, computeFails := st2.computeFails + 1 }
      | some r =>
        let st3 := { st2 with
                     total := st2.total + 1, total_time := st2.total_time + r.2.2,
                     computeSuccesses := st2.computeSuccesses + 1,
                     computedIds := st2.computedIds ++ [t.task_id] }
        match ss with
        | [] => .underrun
        | s :: ss => .next cs ss (submitPhase t s st3)

/-- worker_loop (lines 87-118), driven by finite scripts of fetch responses,
compute outcomes, and submit responses consumed in order.  Each iteration
of the while loop consumes exactly one fetch response and runs workerStep.
Returns the final statistics at the break of line 98, or none when a script
is exhausted before the loop terminates. -/
def workerRun : List FetchResp → List (Option (ℚ × ℚ × ℚ)) → List SubmitResp → Stats → Option Stats
  | [], _, _, _ => none
  | fr :: fs, cs, ss, st =>
    match workerStep fr cs ss st with
    | .next cs ss st => workerRun fs cs ss st
    | .stop st => some st
    | .underrun => none

/-! Canned tasks and responses used in concrete runs. -/

/-- A sample task. -/
def taskEx1 : Task := ⟨1, 2, 2, "t1"⟩

/-- A second sample task. -/
def taskEx2 : Task := ⟨3, 4, 2, "t2"⟩

/-- A successful fetch response carrying a task. -/
def okJson (t : Task) : FetchResp := FetchResp.json none (some 0) (some t)

/-- A generic-failure fetch response (code neither 0 nor -429). -/
def genericJson : FetchResp := FetchResp.json none (some 1) none

/-- A rate-limited fetch response. -/
def rl429Json : FetchResp := FetchResp.json none (some (-429)) none

/-- An auth-expired fetch response. -/
def authJson : FetchResp := FetchResp.json (some "jwt auth err") none none

/-- A rate-limited submit response. -/
def rlSubmit : SubmitResp := SubmitResp.json (some (-429)) none

/-- An accepted submit response. -/
def acceptSubmit : SubmitResp := SubmitResp.json (some 0) (some ⟨true, 5⟩)

end Nebula

/-! Theorems. -/

namespace Nebula

theorem genRow_fst_eq_generateCells (s : Int) (n : Nat) :
    (genRow s n).1 = generateCells s n := by
  induction n generalizing s with
  | zero => rfl
  | succ n ih =>
    simp only [genRow, generateCells, lcgStep]
    exact congrArg _ (ih _)

theorem genRow_snd_eq_iterate (s : Int) (n : Nat) :
    (genRow s n).2 = lcgStep^[n] s := by
  induction n generalizing s with
  | zero => rfl
  | succ n ih =>
    simp only [genRow]
    rw [Function.iterate_succ_apply]
    exact ih (lcgStep s)

theorem generateCells_append (s : Int) (m k : Nat) :
    generateCells s (m + k) = generateCells s m ++ generateCells (lcgStep^[m] s) k := by
  induction m generalizing s with
  | zero => simp [generateCells]
  | succ m ih =>
    have : m + 1 + k = (m + k) + 1 := by omega
    rw [this]
    simp only [generateCells]
    rw [ih (lcgStep s), Function.iterate_succ_apply]
    rfl

theorem matFlat_generate_matrix (seed : Int) (size : Nat) :
    matFlat (generate_matrix seed size) = generateCells seed (size * size) := by
  suffices h : ∀ (rows : Nat) (s : Int), (genRows s rows size).flatten = generateCells s (rows * size) by
    exact h size seed
  intro rows
  induction rows with
  | zero => intro s; simp [genRows, generateCells]
  | succ r ih =>
    intro s
    simp only [genRows]
    rw [genRow_fst_eq_generateCells, genRow_snd_eq_iterate]
    rw [List.flatten_cons, ih]
    have : (r + 1) * size = size + r * size := by ring
    rw [this, generateCells_append]

theorem generateCells_get? (s : Int) (n k : Nat) (hk : k < n) :
    (generateCells s n).get? k = some (lcgStep^[k + 1] s) := by
  induction n generalizing s k with
  | zero => omega
  | succ n ih =>
    cases k with
    | zero => rfl
    | succ k =>
      simp only [generateCells, List.get?]
      rw [ih (lcgStep s) k (by omega)]
      simp [Function.iterate_succ_apply]

theorem mem_generateCells (s : Int) (n : Nat) (x : Int) (hx : x ∈ generateCells s n) :
    ∃ y, x = lcgStep y := by
  induction n generalizing s with
  | zero => simp [generateCells] at hx
  | succ n ih =>
    simp only [generateCells, List.mem_cons] at hx
    rcases hx with h | h
    · exact ⟨s, h⟩
    · exact ih (lcgStep s) h

theorem lcgStep_range (y : Int) : 0 ≤ lcgStep y ∧ lcgStep y < 1000 := by
  unfold lcgStep
  exact ⟨Int.emod_nonneg _ (by decide), Int.emod_lt_of_pos _ (by decide)⟩

/-- C2: for every integer seed and size at least 1, the matrix read row-major
has as its k-th entry the (k+1)-th iterate of lcgStep from the seed: each
produced cell feeds the next step and the chain crosses row boundaries. -/
theorem C2_entries_are_lcg_iterates (seed : Int) (size k : Nat)
    (_hsize : 1 ≤ size) (hk : k < size * size) :
    (matFlat (generate_matrix seed size)).get? k = some (lcgStep^[k + 1] seed) := by
  rw [matFlat_generate_matrix]
  exact generateCells_get? seed _ k hk

theorem C2_entries_are_lcg_iterates_witness :
    1 ≤ 2 ∧ 3 < 2 * 2 ∧
      (matFlat (generate_matrix 7 2)).get? 3 = some (lcgStep^[3 + 1] 7) :=
  ⟨by decide, by decide, C2_entries_are_lcg_iterates 7 2 3 (by decide) (by decide)⟩

/-- C5: for every integer seed, also zero or negative, and every size, every
entry of the generated matrix lies in the interval from 0 inclusive to 1000
exclusive (on the Int model of the whole-valued float entries). -/
theorem C5_entries_in_range (seed : Int) (size : Nat) (x : Int)
    (hx : x ∈ matFlat (generate_matrix seed size)) : 0 ≤ x ∧ x < 1000 := by
  rw [matFlat_generate_matrix] at hx
  obtain ⟨y, rfl⟩ := mem_generateCells seed _ x hx
  exact lcgStep_range y

theorem C5_entries_in_range_witness :
    (202 : Int) ∈ matFlat (generate_matrix 0 1) ∧ (0 ≤ (202 : Int) ∧ (202 : Int) < 1000) :=
  ⟨by decide, C5_entries_in_range 0 1 202 (by decide)⟩

theorem foldl_append_data (l : List String) (acc : String) :
    (l.foldl (fun r s => r ++ s) acc).data = acc.data ++ (l.map String.data).flatten := by
  induction l generalizing acc with
  | nil => simp
  | cons s ss ih => simp [ih, String.data_append]

theorem strBytes_join (l : List String) :
    strBytes (String.join l) = (l.map strBytes).flatten := by
  simp only [strBytes, String.join, foldl_append_data]
  rw [List.nil_append, List.map_flatten, List.map_map]
  rfl

/-- C3: the fingerprint of a matrix is the SHA-256 hash of the concatenation,
in row-major flat order with no separator, of each entry's integer decimal
text, read as a big integer and reduced modulo the modulus; hence for every
positive modulus m the result lies below m (and is a Nat, so nonnegative). -/
theorem C3_fingerprint_matches_spec_and_bound (matrix : List (List Int)) (m : Nat)
    (hm : 0 < m) :
    compute_hash_mod matrix m = fingerprintSpec matrix m ∧ compute_hash_mod matrix m < m := by
  constructor
  · unfold compute_hash_mod fingerprintSpec flatten_matrix
    rw [strBytes_join, List.map_map]
    rfl
  · exact Nat.mod_lt _ hm

theorem C3_fingerprint_matches_spec_and_bound_witness :
    0 < 10 ∧ (compute_hash_mod [[3]] 10 = fingerprintSpec [[3]] 10 ∧
      compute_hash_mod [[3]] 10 < 10) :=
  ⟨by decide, C3_fingerprint_matches_spec_and_bound [[3]] 10 (by decide)⟩

/-- C1: on a task whose computed fingerprint is 0, process_task reports a
compute error: the division in line 80 raises, the except clause returns
None, and no infinite or NaN value is produced; the worker loop counts the
task as a failure and continues with the next fetch (lines 99-102).  The
second conjunct ties the pipeline tail to the full process_task. -/
theorem C1_zero_fingerprint_reports_compute_error :
    (∀ t0 t1 : ℚ, processTaskFrom t0 t1 0 = none) ∧
    (∀ (t0 t1 : ℚ) (s1 s2 : Int) (n : Nat),
      process_task t0 t1 s1 s2 n =
        processTaskFrom t0 t1
          (compute_hash_mod (multiply_matrices (generate_matrix s1 n) (generate_matrix s2 n))
            (10 ^ 7))) ∧
    (∀ (t : Task) (fs : List FetchResp) (cs : List (Option (ℚ × ℚ × ℚ)))
        (ss : List SubmitResp) (st : Stats),
      workerRun (okJson t :: fs) (none :: cs) ss st =
        workerRun fs cs ss
          { st with fetchAttempts := st.fetchAttempts + 1,
                    computeAttempts := st.computeAttempts + 1,
                    fail := st.fail + 1, computeFails := st.computeFails + 1 }) := by
  exact ⟨fun _ _ => rfl, fun _ _ _ _ _ => rfl, fun _ _ _ _ _ => rfl⟩

/-- C4: with a positive fingerprint f and recorded millisecond timestamps t0
and t1, the pipeline returns result_1 = t0 / f, result_2 = f / (t1 - t0)
when t1 differs from t0 and 0 when they are equal, and elapsed time
(t1 - t0) / 1000; the second conjunct ties the tail to the full pipeline. -/
theorem C4_result_formulas :
    (∀ (t0 t1 : ℚ) (f : Nat), 0 < f →
      processTaskFrom t0 t1 f =
        some (t0 / (f : ℚ), if t1 = t0 then 0 else (f : ℚ) / (t1 - t0), (t1 - t0) / 1000)) ∧
    (∀ (t0 t1 : ℚ) (s1 s2 : Int) (n : Nat),
      process_task t0 t1 s1 s2 n =
        processTaskFrom t0 t1
          (compute_hash_mod (multiply_matrices (generate_matrix s1 n) (generate_matrix s2 n))
            (10 ^ 7))) := by
  constructor
  · intro t0 t1 f hf
    unfold processTaskFrom
    rw [if_neg (Nat.pos_iff_ne_zero.mp hf)]
    by_cases h : t1 = t0
    · simp [h]
    · simp [h, sub_eq_zero]
  · intro t0 t1 s1 s2 n
    rfl

theorem C4_result_formulas_witness :
    0 < 5 ∧ processTaskFrom 1 2 5 =
      some ((1 : ℚ) / ((5 : Nat) : ℚ),
        if (2 : ℚ) = 1 then 0 else ((5 : Nat) : ℚ) / ((2 : ℚ) - 1), ((2 : ℚ) - 1) / 1000) :=
  ⟨by decide, C4_result_formulas.1 1 2 5 (by decide)⟩

/-- C8: a fetch response whose error field is the jwt auth error stops the
loop after exactly that one fetch attempt, whatever the rest of the response
holds: no compute or submit happens afterwards (the scripts are untouched)
and the token is appended exactly once to the expired sink. -/
theorem C8_auth_expiry_stops_loop (code : Option Int) (data : Option Task)
    (fs : List FetchResp) (cs : List (Option (ℚ × ℚ × ℚ))) (ss : List SubmitResp) (st : Stats) :
    workerRun (FetchResp.json (some "jwt auth err") code data :: fs) cs ss st =
      some { st with fetchAttempts := st.fetchAttempts + 1,
                     expiredAppends := st.expiredAppends + 1 } :=
  rfl

theorem workerStep_next_rel (fr : FetchResp) (cs : List (Option (ℚ × ℚ × ℚ)))
    (ss : List SubmitResp) (st : Stats) (cs' : List (Option (ℚ × ℚ × ℚ)))
    (ss' : List SubmitResp) (st' : Stats)
    (h : workerStep fr cs ss st = .next cs' ss' st') :
    st'.total + st.computeSuccesses = st'.computeSuccesses + st.total ∧
    st'.success + st.submitAccepts = st'.submitAccepts + st.success ∧
    st'.fail + st.computeFails + st.submitRejects =
      st'.computeFails + st'.submitRejects + st.fail := by
  simp only [workerStep, recordFetch, submitPhase] at h
  repeat' split at h
  all_goals cases h
  all_goals refine ⟨?_, ?_, ?_⟩ <;> simp <;> omega

theorem workerStep_stop_rel (fr : FetchResp) (cs : List (Option (ℚ × ℚ × ℚ)))
    (ss : List SubmitResp) (st : Stats) (st' : Stats)
    (h : workerStep fr cs ss st = .stop st') :
    st'.total + st.computeSuccesses = st'.computeSuccesses + st.total ∧
    st'.success + st.submitAccepts = st'.submitAccepts + st.success ∧
    st'.fail + st.computeFails + st.submitRejects =
      st'.computeFails + st'.submitRejects + st.fail := by
  simp only [workerStep, recordFetch, submitPhase] at h
  repeat' split at h
  all_goals cases h
  all_goals refine ⟨?_, ?_, ?_⟩ <;> simp <;> omega

theorem workerRun_counters (fs : List FetchResp) :
    ∀ (cs : List (Option (ℚ × ℚ × ℚ))) (ss : List SubmitResp) (st out : Stats),
      workerRun fs cs ss st = some out →
      out.total + st.computeSuccesses = out.computeSuccesses + st.total ∧
      out.success + st.submitAccepts = out.submitAccepts + st.success ∧
      out.fail + st.computeFails + st.submitRejects =
        out.computeFails + out.submitRejects + st.fail := by
  induction fs with
  | nil => intro cs ss st out h; exact absurd h (by simp [workerRun])
  | cons fr fs ih =>
    intro cs ss st out h
    simp only [workerRun] at h
    cases hstep : workerStep fr cs ss st with
    | next cs' ss' st' =>
      rw [hstep] at h
      have h1 := workerStep_next_rel fr cs ss st cs' ss' st' hstep
      have h2 := ih cs' ss' st' out h
      omega
    | stop st' =>
      rw [hstep] at h
      have h1 := workerStep_stop_rel fr cs ss st st' hstep
      have h2 := Option.some.inj h
      subst h2
      omega
    | underrun =>
      rw [hstep] at h
      exact absurd h (by simp)

/-- C9: in every run, the attempted-task counter total counts exactly the
tasks whose compute succeeded; a compute failure bumps only the failure
counter, not total; a rate-limited submission bumps total and cumulative
compute time but neither success nor failure; hence success plus fail can
differ from total at termination, as the final concrete run shows. -/
theorem C9_total_counts_compute_successes :
    (∀ (fs : List FetchResp) (cs : List (Option (ℚ × ℚ × ℚ))) (ss : List SubmitResp)
        (st out : Stats), workerRun fs cs ss st = some out →
        out.total + st.computeSuccesses = out.computeSuccesses + st.total ∧
        out.success + st.submitAccepts = out.submitAccepts + st.success ∧
        out.fail + st.computeFails + st.submitRejects =
          out.computeFails + out.submitRejects + st.fail) ∧
    (∀ (t : Task) (fs : List FetchResp) (cs : List (Option (ℚ × ℚ × ℚ)))
        (ss : List SubmitResp) (st : Stats),
      workerRun (okJson t :: fs) (none :: cs) ss st =
        workerRun fs cs ss
          { st with fetchAttempts := st.fetchAttempts + 1,
                    computeAttempts := st.computeAttempts + 1,
                    fail := st.fail + 1, computeFails := st.computeFails + 1 }) ∧
    (∀ (t : Task) (r : ℚ × ℚ × ℚ) (fs : List FetchResp) (cs : List (Option (ℚ × ℚ × ℚ)))
        (ss : List SubmitResp) (st : Stats),
      workerRun (okJson t :: fs) (some r :: cs) (rlSubmit :: ss) st =
        workerRun fs cs ss
          { st with fetchAttempts := st.fetchAttempts + 1,
                    computeAttempts := st.computeAttempts + 1,
                    total := st.total + 1, total_time := st.total_time + r.2.2,
                    computeSuccesses := st.computeSuccesses + 1,
                    computedIds := st.computedIds ++ [t.task_id],
                    submitAttempts := st.submitAttempts + 1,
                    submitRateLimits := st.submitRateLimits + 1,
                    backoffSleeps := st.backoffSleeps + 1 }) ∧
    ((workerRun [okJson taskEx1, genericJson] [some (1, 1, 1)] [rlSubmit] stats0).map
        (fun s => (s.success, s.fail, s.total)) = some (0, 0, 1)) :=
  ⟨workerRun_counters, fun _ _ _ _ _ => rfl, fun _ _ _ _ _ _ => rfl, by decide⟩

theorem C9_total_counts_compute_successes_witness :
    ({ stats0 with fetchAttempts := 1 } : Stats).total + stats0.computeSuccesses =
        ({ stats0 with fetchAttempts := 1 } : Stats).computeSuccesses + stats0.total ∧
      ({ stats0 with fetchAttempts := 1 } : Stats).success + stats0.submitAccepts =
        ({ stats0 with fetchAttempts := 1 } : Stats).submitAccepts + stats0.success ∧
      ({ stats0 with fetchAttempts := 1 } : Stats).fail + stats0.computeFails +
          stats0.submitRejects =
        ({ stats0 with fetchAttempts := 1 } : Stats).computeFails +
          ({ stats0 with fetchAttempts := 1 } : Stats).submitRejects + stats0.fail :=
  C9_total_counts_compute_successes.1 [genericJson] [] [] stats0
    { stats0 with fetchAttempts := 1 } (by decide)

/-- C7 counterexample: a network error during fetch is caught and mapped to
the generic-failure value, but the worker loop then terminates through the
break of lines 97-98: the final statistics show no failure counted and only
one fetch attempt even though a further task was available — the loop did
not count the error and did not continue past it. -/
theorem C7_counterexample :
    workerRun [FetchResp.netError, okJson taskEx1] [some (1, 1, 1)] [acceptSubmit] stats0 =
      some { stats0 with fetchAttempts := 1 } := by decide

/-- C7 amended: every network or protocol error raised during fetch or submit
is caught — it never crashes the worker — and is treated as the generic
failure value; on submit it is counted as a failure and the loop continues
with the next fetch, but on fetch the loop terminates normally through the
break of lines 97-98 without incrementing the failure counter. -/
theorem C7_amended_network_errors :
    fetch_task FetchResp.netError = ⟨none, false, false, false⟩ ∧
    submit_results SubmitResp.netError = (false, false) ∧
    (∀ (fs : List FetchResp) (cs : List (Option (ℚ × ℚ × ℚ)))
        (ss : List SubmitResp) (st : Stats),
      workerRun (FetchResp.netError :: fs) cs ss st =
        some { st with fetchAttempts := st.fetchAttempts + 1 }) ∧
    (∀ (t : Task) (r : ℚ × ℚ × ℚ) (fs : List FetchResp) (cs : List (Option (ℚ × ℚ × ℚ)))
        (ss : List SubmitResp) (st : Stats),
      workerRun (okJson t :: fs) (some r :: cs) (SubmitResp.netError :: ss) st =
        workerRun fs cs ss
          { st with fetchAttempts := st.fetchAttempts + 1,
                    computeAttempts := st.computeAttempts + 1,
                    total := st.total + 1, total_time := st.total_time + r.2.2,
                    computeSuccesses := st.computeSuccesses + 1,
                    computedIds := st.computedIds ++ [t.task_id],
                    submitAttempts := st.submitAttempts + 1,
                    submitRejects := st.submitRejects + 1,
                    fail := st.fail + 1, paceSleeps := st.paceSleeps + 1 }) :=
  ⟨rfl, rfl, fun _ _ _ _ => rfl, fun _ _ _ _ _ _ => rfl⟩

/-- C6 counterexample: with a submit mock that returns -429 exactly once and
then succeeds, the worker performs the one backoff sleep but the first
task's computed result is lost: both task results were computed, only the
second was ever accepted, and the first submission was never retried (two
submit attempts total, one per task). -/
theorem C6_counterexample :
    (workerRun [okJson taskEx1, okJson taskEx2, genericJson]
        [some (1, 1, 1), some (1, 1, 1)] [rlSubmit, acceptSubmit] stats0).map
      (fun s => (s.computedIds, s.acceptedIds, s.backoffSleeps, s.submitAttempts,
                 s.success, s.fail, s.total)) =
      some (["t1", "t2"], ["t2"], 1, 2, 1, 0, 2) := rfl

theorem workerRun_rl_fetch_step (fs : List FetchResp) (cs : List (Option (ℚ × ℚ × ℚ)))
    (ss : List SubmitResp) (st : Stats) :
    workerRun (rl429Json :: fs) cs ss st =
      workerRun fs cs ss { st with fetchAttempts := st.fetchAttempts + 1,
                                   backoffSleeps := st.backoffSleeps + 1 } :=
  rfl

/-- C6 amended: when fetch responds with code -429 exactly N times and then
succeeds, the worker performs exactly N fixed backoff sleeps and then
proceeds, the rest of the run unchanged, so no task or result is lost or
duplicated on the fetch side; but when submit responds with code -429 the
worker sleeps one backoff and returns to fetching: the in-hand task's
computed result is dropped, never resubmitted. -/
theorem C6_amended_fetch_retry_submit_drop :
    (∀ (N : Nat) (fs : List FetchResp) (cs : List (Option (ℚ × ℚ × ℚ)))
        (ss : List SubmitResp) (st : Stats),
      workerRun (List.replicate N rl429Json ++ fs) cs ss st =
        workerRun fs cs ss { st with fetchAttempts := st.fetchAttempts + N,
                                     backoffSleeps := st.backoffSleeps + N }) ∧
    (∀ (t : Task) (r : ℚ × ℚ × ℚ) (fs : List FetchResp) (cs : List (Option (ℚ × ℚ × ℚ)))
        (ss : List SubmitResp) (st : Stats),
      workerRun (okJson t :: fs) (some r :: cs) (rlSubmit :: ss) st =
        workerRun fs cs ss
          { st with fetchAttempts := st.fetchAttempts + 1,
                    computeAttempts := st.computeAttempts + 1,
                    total := st.total + 1, total_time := st.total_time + r.2.2,
                    computeSuccesses := st.computeSuccesses + 1,
                    computedIds := st.computedIds ++ [t.task_id],
                    submitAttempts := st.submitAttempts + 1,
                    submitRateLimits := st.submitRateLimits + 1,
                    backoffSleeps := st.backoffSleeps + 1 }) := by
  constructor
  · intro N
    induction N with
    | zero => intro fs cs ss st; rfl
    | succ N ih =>
      intro fs cs ss st
      rw [List.replicate_succ, List.cons_append, workerRun_rl_fetch_step, ih]
      congr 1
      cases st
      simp
      omega
  · intro t r fs cs ss st
    rfl

/-- C10: fetch_task does not distinguish AuthExpired from GenericFailure in
its return value — both give the triple (none, false, false), so the worker
loop terminates through the identical break branch in either case; the only
observable difference on auth expiry is the append to the expired-token sink
performed inside fetch_task itself, not by the loop. -/
theorem C10_auth_and_generic_same_triple :
    (∀ (code : Option Int) (data : Option Task),
      fetchTriple (FetchResp.json (some "jwt auth err") code data) = (none, false, false) ∧
      (fetch_task (FetchResp.json (some "jwt auth err") code data)).expiredAppend = true) ∧
    (∀ (error : Option String) (code : Option Int) (data : Option Task),
      error ≠ some "jwt auth err" → code ≠ some (-429) → code ≠ some 0 →
      fetchTriple (FetchResp.json error code data) = (none, false, false) ∧
      (fetch_task (FetchResp.json error code data)).expiredAppend = false) ∧
    (fetchTriple FetchResp.netError = (none, false, false) ∧
      (fetch_task FetchResp.netError).expiredAppend = false) ∧
    (∀ (r : FetchResp) (fs : List FetchResp) (cs : List (Option (ℚ × ℚ × ℚ)))
        (ss : List SubmitResp) (st : Stats),
      (fetch_task r).ok = false → (fetch_task r).rateLimit = false →
      workerRun (r :: fs) cs ss st = some (recordFetch (fetch_task r) st)) := by
  refine ⟨fun code data => ⟨rfl, rfl⟩, ?_, ⟨rfl, rfl⟩, ?_⟩
  · intro error code data h1 h2 h3
    simp only [fetchTriple, fetch_task]
    rw [if_neg h1, if_neg h2, if_neg h3]
    exact ⟨rfl, rfl⟩
  · intro r fs cs ss st hok hrl
    have hstep : workerStep r cs ss st = .stop (recordFetch (fetch_task r) st) := by
      simp [workerStep, hok, hrl]
    simp [workerRun, hstep]

theorem C10_auth_and_generic_same_triple_witness :
    (fetchTriple (FetchResp.json none (some 7) none) = (none, false, false) ∧
      (fetch_task (FetchResp.json none (some 7) none)).expiredAppend = false) ∧
    workerRun [FetchResp.netError] [] [] stats0 =
      some (recordFetch (fetch_task FetchResp.netError) stats0) :=
  ⟨C10_auth_and_generic_same_triple.2.1 none (some 7) none (by decide) (by decide) (by decide),
   C10_auth_and_generic_same_triple.2.2.2 FetchResp.netError [] [] [] stats0 rfl rfl⟩

/-! Validation of the SHA-256 embedding against the standard test vectors,
and of the whole numeric pipeline at the end-to-end scenario seeds. -/

set_option maxRecDepth 100000 in
/-- Validation: the embedded SHA-256 digest of the ASCII string abc equals
the standard test-vector value. -/
theorem sha256Nat_vector_abc :
    sha256Nat (strBytes "abc") =
      0xba7816bf8f01cfea414140de5dae2223b00361a396177a9cb410ff61f20015ad := by decide

set_option maxRecDepth 100000 in
/-- Validation: the embedded SHA-256 digest of the empty message equals the
standard test-vector value. -/
theorem sha256Nat_vector_empty :
    sha256Nat [] =
      0xe3b0c44298fc1c149afbf4c8996fb92427ae41e4649b934ca495991b7852b855 := by decide

set_option maxRecDepth 100000 in
/-- End-to-end scenario of the specification: seeds 1 and 2 with matrix size
2 give the concrete product matrix below and fingerprint 9527532 under the
default modulus. -/
theorem endToEnd_seed1_seed2 :
    multiply_matrices (generate_matrix 1 2) (generate_matrix 2 2) =
        [[89364, 118836], [385412, 483140]] ∧
      compute_hash_mod (multiply_matrices (generate_matrix 1 2) (generate_matrix 2 2))
        (10 ^ 7) = 9527532 := by
  exact ⟨by decide, by decide⟩

end Nebula
